import Mathlib

/-!
Shallow embedding of the threat-intel-backend core: the domain layer
(`domain/user.go`, the order aggregate), the JWT service
(`infrastructure/jwt`), and the application services
(`application/order_service.go`, `application/auth_service.go`).

Modelling conventions:
* UUIDs are `Nat` (an opaque 128-bit value); `uuid.New()` is modelled by
  passing the fresh id as an explicit parameter; `uuid.String()` is
  `uuidString`, the canonical 8-4-4-4-12 hyphenated hex rendering.
* `time.Time` / `time.Now()` are modelled as a `Nat` (seconds) passed as an
  explicit `now` parameter; `time.Duration` constants are in seconds.
* bcrypt is modelled symbolically as a perfect salted hash: the stored hash
  is the pair (salt, plaintext), `CompareHashAndPassword` is plaintext
  equality struck against the stored pair.
* A JWT string is modelled as `TokenString`: either a well-formed signed
  token (its JSON payload plus an HMAC signature, modelled symbolically as
  the pair (signing secret, signed payload), which matches on verification
  iff both the secret and the payload agree), or a malformed string.
  The claim payload is one record of optional fields, mirroring JSON
  unmarshalling: parsing into `Claims` defaults absent `user_id`/`role` to
  the Go zero values, parsing into `RegisteredClaims` ignores them.
  A token subject is `Option Nat`: `some uid` stands for the canonical
  string of uuid `uid` (which `uuid.Parse` recovers), `none` for any string
  that is not a uuid.
* Go `(T, error)` returns are `Except String T` (the error message) or
  `Except JwtError T` for the jwt library's errors.
-/

/-- `domain.UserRole` is a string type in Go; roles are plain strings. -/
abbrev UserRole := String

def RoleAdmin : UserRole := "admin"

def RoleAnalyst : UserRole := "analyst"

def RoleViewer : UserRole := "viewer"

/-- Symbolic bcrypt hash: `salt` models the random salt, `plain` the
hashed plaintext (perfect-hash idealization of `bcrypt.GenerateFromPassword`). -/
structure BcryptHash where
  salt : Nat
  plain : String
deriving DecidableEq

/-- `domain.User` (domain/user.go). -/
structure User where
  ID : Nat
  Email : String
  PasswordHash : BcryptHash
  Role : UserRole
  IsActive : Bool
  CreatedAt : Nat
  UpdatedAt : Nat
deriving DecidableEq

/-- `domain.NewUser`: fresh id and salt are passed explicitly (uuid.New and
bcrypt's random salt), `now` models `time.Now()`. -/
def NewUser (id salt now : Nat) (email password : String) (role : UserRole) : User :=
  { ID := id
    Email := email
    PasswordHash := { salt := salt, plain := password }
    Role := role
    IsActive := true
    CreatedAt := now
    UpdatedAt := now }

/-- `User.ValidatePassword`: bcrypt comparison under the perfect-hash model. -/
def User.ValidatePassword (u : User) (password : String) : Bool :=
  u.PasswordHash.plain == password

/-- The role-hierarchy map of `User.HasPermission`; a Go map lookup yields
the zero value 0 for any key outside {viewer, analyst, admin}. -/
def roleHierarchy (r : UserRole) : Nat :=
  if r = RoleViewer then 1
  else if r = RoleAnalyst then 2
  else if r = RoleAdmin then 3
  else 0

/-- `User.HasPermission` (domain/user.go): rank comparison via `roleHierarchy`. -/
def User.HasPermission (u : User) (requiredRole : UserRole) : Bool :=
  roleHierarchy u.Role ≥ roleHierarchy requiredRole

/-- `domain.OrderStatus` (four string constants in Go). -/
inductive OrderStatus where
  | pending
  | confirmed
  | completed
  | cancelled
deriving DecidableEq

/-- A zero-valued `domain.User`, the Go zero value of the embedded
`Order.User` field left unset by `NewOrder`. -/
def zeroUser : User :=
  { ID := 0, Email := "", PasswordHash := { salt := 0, plain := "" },
    Role := "", IsActive := false, CreatedAt := 0, UpdatedAt := 0 }

/-- `domain.Order`. The `User` field is the denormalized owner. -/
structure Order where
  ID : Nat
  UserID : Nat
  ItemID : String
  Quantity : Int
  Status : OrderStatus
  CreatedAt : Nat
  UpdatedAt : Nat
  User : User
deriving DecidableEq

/-- `domain.NewOrder`: builds the aggregate's order at Pending with a fresh
id (`oid` models `uuid.New()`) and current timestamps. The Go
`OrderAggregate` is a bare wrapper around `*Order`, so the aggregate methods
are modelled directly as `Order → Order`. -/
def NewOrder (oid now : Nat) (userID : Nat) (itemID : String) (quantity : Int) : Order :=
  { ID := oid
    UserID := userID
    ItemID := itemID
    Quantity := quantity
    Status := OrderStatus.pending
    CreatedAt := now
    UpdatedAt := now
    User := zeroUser }

namespace OrderAggregate

/-- `OrderAggregate.Confirm`: unconditionally sets Confirmed and refreshes
the update timestamp to `now` (`time.Now()`). -/
def Confirm (now : Nat) (o : Order) : Order :=
  { o with Status := OrderStatus.confirmed, UpdatedAt := now }

/-- `OrderAggregate.Complete`: unconditionally sets Completed and refreshes
the update timestamp. -/
def Complete (now : Nat) (o : Order) : Order :=
  { o with Status := OrderStatus.completed, UpdatedAt := now }

/-- `OrderAggregate.Cancel`: unconditionally sets Cancelled and refreshes
the update timestamp. -/
def Cancel (now : Nat) (o : Order) : Order :=
  { o with Status := OrderStatus.cancelled, UpdatedAt := now }

end OrderAggregate

/-- The transition graph claimed by the spec's invariant
(spec §3, "States: Pending → Confirmed → Completed; Cancelled reachable from
Pending or Confirmed; Completed and Cancelled terminal"), transcribed from
the spec's words to compare against the code's actual behaviour. -/
def claimedEdge : OrderStatus → OrderStatus → Bool
  | OrderStatus.pending, OrderStatus.confirmed => true
  | OrderStatus.confirmed, OrderStatus.completed => true
  | OrderStatus.pending, OrderStatus.cancelled => true
  | OrderStatus.confirmed, OrderStatus.cancelled => true
  | _, _ => false

/-- Fixed-width hex rendering: the `len` hex digits of `n`, most significant
first, zero-padded (the building block of `uuid.UUID.String()`). -/
def hexChars : Nat → Nat → List Char
  | 0, _ => []
  | len + 1, n => hexChars len (n / 16) ++ [Nat.digitChar (n % 16)]

/-- `uuid.UUID.String()`: the canonical 36-character 8-4-4-4-12 hyphenated
lowercase-hex form of the 128-bit value. -/
def uuidString (n : Nat) : String :=
  let v := n % 2 ^ 128
  String.mk (hexChars 8 (v / 2 ^ 96) ++ '-' ::
    (hexChars 4 (v / 2 ^ 80 % 2 ^ 16) ++ '-' ::
      (hexChars 4 (v / 2 ^ 64 % 2 ^ 16) ++ '-' ::
        (hexChars 4 (v / 2 ^ 48 % 2 ^ 16) ++ '-' :: hexChars 12 (v % 2 ^ 48)))))

theorem hexChars_length (len n : Nat) : (hexChars len n).length = len := by
  induction len generalizing n with
  | zero => rfl
  | succ k ih => simp [hexChars, ih]

theorem uuidString_length (n : Nat) : (uuidString n).length = 36 := by
  simp [uuidString, String.length, hexChars_length]

theorem uuidString_ne_empty (n : Nat) : uuidString n ≠ "" := by
  intro h
  have h36 := uuidString_length n
  rw [h] at h36
  simp [String.length] at h36

instance instDecidableEqExcept {ε α : Type} [DecidableEq ε] [DecidableEq α] :
    DecidableEq (Except ε α)
  | Except.ok a, Except.ok b =>
    if h : a = b then isTrue (by rw [h]) else isFalse (fun c => h (Except.ok.inj c))
  | Except.ok _, Except.error _ => isFalse (fun c => Except.noConfusion c)
  | Except.error _, Except.ok _ => isFalse (fun c => Except.noConfusion c)
  | Except.error e, Except.error f =>
    if h : e = f then isTrue (by rw [h]) else isFalse (fun c => h (Except.error.inj c))

/-- The jwt library's failure modes relevant to `ParseWithClaims`
(`golang-jwt/jwt/v5`): undecodable token, HMAC signature mismatch, elapsed
expiry, and (for the refresh path) a subject that `uuid.Parse` rejects. -/
inductive JwtError where
  | malformed
  | signatureInvalid
  | expired
  | badSubject
deriving DecidableEq

/-- The JSON payload of a token. `UserID`/`Role` are present on access
tokens and absent on refresh tokens; unmarshalling into a narrower claims
struct ignores the extra fields. `Subject` is `some uid` when the subject
string is the canonical form of uuid `uid`, `none` otherwise. -/
structure Payload where
  UserID : Option Nat
  Role : Option UserRole
  ExpiresAt : Nat
  IssuedAt : Nat
  Subject : Option Nat
deriving DecidableEq

/-- A JWT string: a signed token (payload plus HMAC-SHA256 signature,
modelled symbolically as the (secret, signed payload) pair), or any string
that does not decode as a JWT. -/
inductive TokenString where
  | signed (payload : Payload) (sig : String × Payload)
  | malformed (raw : String)
deriving DecidableEq

/-- `jwt.RegisteredClaims` as used by this service (ExpiresAt, IssuedAt,
Subject). -/
structure RegisteredClaims where
  ExpiresAt : Nat
  IssuedAt : Nat
  Subject : Option Nat
deriving DecidableEq

/-- `jwt.Claims` (infrastructure/jwt): user id and role plus the embedded
registered claims. -/
structure Claims where
  UserID : Nat
  Role : UserRole
  Registered : RegisteredClaims
deriving DecidableEq

/-- Unmarshalling a payload into `Claims`: absent `user_id`/`role` become
the Go zero values (`uuid.Nil` = 0, empty string). -/
def claimsOfPayload (p : Payload) : Claims :=
  { UserID := p.UserID.getD 0
    Role := p.Role.getD ""
    Registered := { ExpiresAt := p.ExpiresAt, IssuedAt := p.IssuedAt, Subject := p.Subject } }

/-- `jwt.Service` (infrastructure/jwt): secret plus the two TTLs. -/
structure Service where
  secretKey : String
  accessTokenTTL : Nat
  refreshTokenTTL : Nat
deriving DecidableEq

/-- `jwt.NewService`: 15-minute access TTL, 7-day refresh TTL (seconds). -/
def NewService (secretKey : String) : Service :=
  { secretKey := secretKey
    accessTokenTTL := 15 * 60
    refreshTokenTTL := 7 * 24 * 60 * 60 }

namespace Service

/-- `Service.GenerateAccessToken`: signs Claims{UserID, Role,
ExpiresAt=now+TTL, IssuedAt=now, Subject=userID.String()} with the
service's secret. (`SignedString` can only fail on a mis-typed key, which
cannot happen here, so the Go error return is always nil.) -/
def GenerateAccessToken (s : Service) (now : Nat) (userID : Nat) (role : UserRole) :
    TokenString :=
  let p : Payload :=
    { UserID := some userID
      Role := some role
      ExpiresAt := now + s.accessTokenTTL
      IssuedAt := now
      Subject := some userID }
  TokenString.signed p (s.secretKey, p)

/-- `Service.GenerateRefreshToken`: signs RegisteredClaims only — no role,
subject = userID.String(), 7-day expiry. -/
def GenerateRefreshToken (s : Service) (now : Nat) (userID : Nat) : TokenString :=
  let p : Payload :=
    { UserID := none
      Role := none
      ExpiresAt := now + s.refreshTokenTTL
      IssuedAt := now
      Subject := some userID }
  TokenString.signed p (s.secretKey, p)

/-- `Service.ValidateAccessToken`: parse, verify the HMAC with the
service's secret, validate expiry, and return the payload read as `Claims`.
(jwt/v5 verifies the signature before validating claims; `iat` is not
validated by default, `exp` requires now < ExpiresAt.) -/
def ValidateAccessToken (s : Service) (now : Nat) (tokenString : TokenString) :
    Except JwtError Claims :=
  match tokenString with
  | TokenString.malformed _ => Except.error JwtError.malformed
  | TokenString.signed p sig =>
    if sig = (s.secretKey, p) then
      if now < p.ExpiresAt then Except.ok (claimsOfPayload p)
      else Except.error JwtError.expired
    else Except.error JwtError.signatureInvalid

/-- `Service.ValidateRefreshToken`: parse into `RegisteredClaims` (any
`user_id`/`role` fields in the payload are ignored), verify signature and
expiry, then `uuid.Parse` the subject. -/
def ValidateRefreshToken (s : Service) (now : Nat) (tokenString : TokenString) :
    Except JwtError Nat :=
  match tokenString with
  | TokenString.malformed _ => Except.error JwtError.malformed
  | TokenString.signed p sig =>
    if sig = (s.secretKey, p) then
      if now < p.ExpiresAt then
        match p.Subject with
        | some userID => Except.ok userID
        | none => Except.error JwtError.badSubject
      else Except.error JwtError.expired
    else Except.error JwtError.signatureInvalid

end Service

/-- `domain.UserRepository` (ports): finders return the entity or an error. -/
structure UserRepository where
  FindByID : Nat → Except String User
  FindByEmail : String → Except String User

/-- `domain.OrderRepository` (ports). -/
structure OrderRepository where
  Save : Order → Except String Unit
  FindByID : Nat → Except String Order
  FindByUserID : Nat → Except String (List Order)

/-- `application.AuthService`. -/
structure AuthService where
  userRepo : UserRepository
  jwtService : Service

/-- `application.LoginRequest`. -/
structure LoginRequest where
  Email : String
  Password : String
deriving DecidableEq

/-- `application.AuthResponse`. -/
structure AuthResponse where
  AccessToken : TokenString
  RefreshToken : TokenString
  User : User
deriving DecidableEq

/-- `AuthService.Login` (application/auth_service.go): email lookup, active
check, password check, then token issuance. Lookup and password failures
share the message "invalid credentials". -/
def AuthService.Login (s : AuthService) (now : Nat) (req : LoginRequest) :
    Except String AuthResponse :=
  match s.userRepo.FindByEmail req.Email with
  | Except.error _ => Except.error "invalid credentials"
  | Except.ok user =>
    if !user.IsActive then Except.error "account is inactive"
    else if !user.ValidatePassword req.Password then Except.error "invalid credentials"
    else
      Except.ok
        { AccessToken := s.jwtService.GenerateAccessToken now user.ID user.Role
          RefreshToken := s.jwtService.GenerateRefreshToken now user.ID
          User := user }

/-- `AuthService.RefreshToken`: validate the refresh token, reload the user
by the embedded id, and issue a fresh access token from the user's current
stored role plus a fresh refresh token. -/
def AuthService.RefreshToken (s : AuthService) (now : Nat) (refreshToken : TokenString) :
    Except String AuthResponse :=
  match s.jwtService.ValidateRefreshToken now refreshToken with
  | Except.error _ => Except.error "invalid refresh token"
  | Except.ok userID =>
    match s.userRepo.FindByID userID with
    | Except.error _ => Except.error "user not found"
    | Except.ok user =>
      Except.ok
        { AccessToken := s.jwtService.GenerateAccessToken now user.ID user.Role
          RefreshToken := s.jwtService.GenerateRefreshToken now user.ID
          User := user }

/-- `application.OrderService`. -/
structure OrderService where
  orderRepo : OrderRepository
  userRepo : UserRepository

/-- `application.CreateOrderRequest`. -/
structure CreateOrderRequest where
  ItemID : String
  Quantity : Int
deriving DecidableEq

/-- `application.OrderResponse`: the order id rendered as a string plus the
status. -/
structure OrderResponse where
  OrderID : String
  Status : OrderStatus
deriving DecidableEq

/-- The `validItems` allow-list map (application/order_service.go): a Go map
lookup yielding false for any key outside the three tiers. -/
def validItems (itemID : String) : Bool :=
  itemID == "intel-basic" || itemID == "intel-premium" || itemID == "intel-enterprise"

/-- `OrderService.CreateOrder`: allow-list check before any user lookup,
then user load, Viewer-permission gate, order construction at Pending
immediately confirmed, persistence (errors propagate verbatim), and the
response {orderID, status}. `oid` models the fresh `uuid.New()`, `now` the
`time.Now()` calls of the request. -/
def OrderService.CreateOrder (s : OrderService) (oid now : Nat) (userID : Nat)
    (req : CreateOrderRequest) : Except String OrderResponse :=
  if !validItems req.ItemID then Except.error "invalid item_id"
  else
    match s.userRepo.FindByID userID with
    | Except.error _ => Except.error "user not found"
    | Except.ok user =>
      if !user.HasPermission RoleViewer then Except.error "insufficient permissions"
      else
        let o := OrderAggregate.Confirm now (NewOrder oid now userID req.ItemID req.Quantity)
        match s.orderRepo.Save o with
        | Except.error e => Except.error e
        | Except.ok _ => Except.ok { OrderID := uuidString o.ID, Status := o.Status }

/-- `OrderService.GetOrder`: load the order and the requesting user
(propagating repository errors), then deny unless the requester owns the
order or has Analyst-level permission. -/
def OrderService.GetOrder (s : OrderService) (orderID userID : Nat) :
    Except String Order :=
  match s.orderRepo.FindByID orderID with
  | Except.error e => Except.error e
  | Except.ok order =>
    match s.userRepo.FindByID userID with
    | Except.error e => Except.error e
    | Except.ok user =>
      if order.UserID ≠ userID && !user.HasPermission RoleAnalyst then
        Except.error "access denied"
      else Except.ok order

/-- `OrderService.GetUserOrders`. -/
def OrderService.GetUserOrders (s : OrderService) (userID : Nat) :
    Except String (List Order) :=
  s.orderRepo.FindByUserID userID

/-- The three known roles, as an enumeration used to quantify over the
role-hierarchy table. -/
inductive KnownRole where
  | viewer
  | analyst
  | admin
deriving DecidableEq

/-- The role string of a known role. -/
def KnownRole.str : KnownRole → UserRole
  | KnownRole.viewer => RoleViewer
  | KnownRole.analyst => RoleAnalyst
  | KnownRole.admin => RoleAdmin

/-- The rank table exactly as the spec words it (Admin=3, Analyst=2,
Viewer=1), written independently of the code's `roleHierarchy` so the
two can be compared. -/
def KnownRole.specRank : KnownRole → Nat
  | KnownRole.viewer => 1
  | KnownRole.analyst => 2
  | KnownRole.admin => 3

/-- The role claim carried by a token's payload, if any. -/
def tokenRoleClaim : TokenString → Option UserRole
  | TokenString.signed p _ => p.Role
  | TokenString.malformed _ => none

/-- C1 counterexample: the claimed transition graph is violated by the
code. From a freshly created Pending order, a single `Complete` call moves
the status directly Pending→Completed, an edge outside the claimed graph;
a further `Confirm` call then leaves the allegedly terminal Completed
state. -/
theorem C1_counterexample :
    (NewOrder 1 0 2 "intel-basic" 1).Status = OrderStatus.pending ∧
    (OrderAggregate.Complete 1 (NewOrder 1 0 2 "intel-basic" 1)).Status =
      OrderStatus.completed ∧
    claimedEdge (NewOrder 1 0 2 "intel-basic" 1).Status
      (OrderAggregate.Complete 1 (NewOrder 1 0 2 "intel-basic" 1)).Status = false ∧
    (OrderAggregate.Confirm 2
      (OrderAggregate.Complete 1 (NewOrder 1 0 2 "intel-basic" 1))).Status =
      OrderStatus.confirmed ∧
    claimedEdge
      (OrderAggregate.Complete 1 (NewOrder 1 0 2 "intel-basic" 1)).Status
      (OrderAggregate.Confirm 2
        (OrderAggregate.Complete 1 (NewOrder 1 0 2 "intel-basic" 1))).Status = false := by
  decide

/-- C1 (amended): `Confirm`, `Complete` and `Cancel` are unconditional
setters. From any current status — including Completed and Cancelled —
each call sets the status to its respective target state, and each call
sets the update timestamp to the call time; no transition guard enforces
the Pending→Confirmed→Completed/Cancelled graph. -/
theorem C1_amended_unconditional_setters (o : Order) (now : Nat) :
    (OrderAggregate.Confirm now o).Status = OrderStatus.confirmed ∧
    (OrderAggregate.Confirm now o).UpdatedAt = now ∧
    (OrderAggregate.Complete now o).Status = OrderStatus.completed ∧
    (OrderAggregate.Complete now o).UpdatedAt = now ∧
    (OrderAggregate.Cancel now o).Status = OrderStatus.cancelled ∧
    (OrderAggregate.Cancel now o).UpdatedAt = now :=
  ⟨rfl, rfl, rfl, rfl, rfl, rfl⟩

/-- C5: for users whose role is one of the three known roles,
`HasPermission` agrees with the spec's rank comparison (Admin=3,
Analyst=2, Viewer=1): it holds iff rank(user.role) ≥ rank(requiredRole).
In particular Admin satisfies all three required roles, Analyst satisfies
Viewer and Analyst but not Admin, and Viewer satisfies only Viewer. -/
theorem C5_hasPermission_is_rank_comparison (u : User) (r q : KnownRole) :
    User.HasPermission { u with Role := r.str } q.str =
      decide (KnownRole.specRank r ≥ KnownRole.specRank q) := by
  cases r <;> cases q <;> rfl

/-- C10: a user whose role is outside {viewer, analyst, admin} gets rank 0
from the role-hierarchy map (Go's zero value for a missing key), hence
fails `HasPermission` for every known required role, satisfies
`HasPermission` for any required role that is itself unknown (0 ≥ 0), and
is rejected by `CreateOrder` with "insufficient permissions". -/
theorem C10_unknown_role_rank_zero (u : User) (r : UserRole) (kr : KnownRole)
    (s : OrderService) (oid now userID : Nat) (req : CreateOrderRequest)
    (h1 : u.Role ≠ RoleViewer) (h2 : u.Role ≠ RoleAnalyst) (h3 : u.Role ≠ RoleAdmin)
    (hr1 : r ≠ RoleViewer) (hr2 : r ≠ RoleAnalyst) (hr3 : r ≠ RoleAdmin)
    (hitem : validItems req.ItemID = true)
    (hfind : s.userRepo.FindByID userID = Except.ok u) :
    roleHierarchy u.Role = 0 ∧
    User.HasPermission u kr.str = false ∧
    User.HasPermission u r = true ∧
    s.CreateOrder oid now userID req = Except.error "insufficient permissions" := by
  have hz : roleHierarchy u.Role = 0 := by
    unfold roleHierarchy
    rw [if_neg h1, if_neg h2, if_neg h3]
  have hrz : roleHierarchy r = 0 := by
    unfold roleHierarchy
    rw [if_neg hr1, if_neg hr2, if_neg hr3]
  have hperm : User.HasPermission u kr.str = false := by
    cases kr <;> (unfold User.HasPermission KnownRole.str; rw [hz]; rfl)
  have hviewer : User.HasPermission u RoleViewer = false := by
    unfold User.HasPermission
    rw [hz]
    rfl
  refine ⟨hz, hperm, ?_, ?_⟩
  · unfold User.HasPermission
    rw [hz, hrz]
    rfl
  · unfold OrderService.CreateOrder
    rw [hitem, hfind]
    simp [hviewer]

/-- A user with an unknown role, used to exercise the role-hierarchy map's
zero-value default. -/
def superUser : User := NewUser 5 0 0 "s@x" "pw" "superuser"

/-- A concrete order service whose user store holds only `superUser` (id 5)
and whose order store accepts every save. -/
def svcSuper : OrderService :=
  { orderRepo :=
      { Save := fun _ => Except.ok (),
        FindByID := fun _ => Except.error "nf",
        FindByUserID := fun _ => Except.ok [] },
    userRepo :=
      { FindByID := fun id => if id = 5 then Except.ok superUser else Except.error "nf",
        FindByEmail := fun _ => Except.error "nf" } }

/-- C10 witness: the user with unknown role "superuser" has rank 0, fails
the Viewer check, passes a check against the unknown role "ghost", and is
rejected by `CreateOrder`. -/
theorem C10_witness :
    roleHierarchy superUser.Role = 0 ∧
    User.HasPermission superUser KnownRole.viewer.str = false ∧
    User.HasPermission superUser "ghost" = true ∧
    svcSuper.CreateOrder 9 0 5 { ItemID := "intel-basic", Quantity := 1 } =
      Except.error "insufficient permissions" :=
  C10_unknown_role_rank_zero superUser "ghost" KnownRole.viewer svcSuper
    9 0 5 { ItemID := "intel-basic", Quantity := 1 }
    (by decide) (by decide) (by decide) (by decide) (by decide) (by decide)
    (by decide) rfl

/-- C2: an access token is accepted by the refresh-token verifier. For any
service, any user id and role, and any check time before the access
token's 15-minute expiry, `ValidateRefreshToken` applied to the output of
`GenerateAccessToken` succeeds and returns that user id: the refresh
verifier only checks signature, expiry and subject, none of which
distinguish token kinds. -/
theorem C2_access_token_accepted_as_refresh (s : Service) (tIssue tCheck userID : Nat)
    (role : UserRole) (h : tCheck < tIssue + s.accessTokenTTL) :
    s.ValidateRefreshToken tCheck (s.GenerateAccessToken tIssue userID role) =
      Except.ok userID := by
  simp [Service.ValidateRefreshToken, Service.GenerateAccessToken, h]

/-- C2 witness: a concrete access token issued at time 0 for user 7 passes
refresh validation at time 10 and yields user 7. -/
theorem C2_witness :
    (NewService "k").ValidateRefreshToken 10
      ((NewService "k").GenerateAccessToken 0 7 RoleAdmin) = Except.ok 7 :=
  C2_access_token_accepted_as_refresh (NewService "k") 0 10 7 RoleAdmin (by decide)

/-- C9: round-trip. Verifying (with the same secret, before the expiry
`issuedAt + accessTokenTTL`) a token produced by `GenerateAccessToken`
succeeds and returns claims carrying exactly the issued user id and
role. -/
theorem C9_access_token_roundtrip (s : Service) (tIssue tCheck userID : Nat)
    (role : UserRole) (h : tCheck < tIssue + s.accessTokenTTL) :
    s.ValidateAccessToken tCheck (s.GenerateAccessToken tIssue userID role) =
      Except.ok
        { UserID := userID
          Role := role
          Registered :=
            { ExpiresAt := tIssue + s.accessTokenTTL
              IssuedAt := tIssue
              Subject := some userID } } := by
  simp [Service.ValidateAccessToken, Service.GenerateAccessToken, claimsOfPayload, h]

/-- C9 witness: a concrete round-trip at issue time 0, check time 100,
user 7, role analyst. -/
theorem C9_witness :
    (NewService "k").ValidateAccessToken 100
      ((NewService "k").GenerateAccessToken 0 7 RoleAnalyst) =
      Except.ok
        { UserID := 7,
          Role := RoleAnalyst,
          Registered :=
            { ExpiresAt := 0 + (NewService "k").accessTokenTTL,
              IssuedAt := 0,
              Subject := some 7 } } :=
  C9_access_token_roundtrip (NewService "k") 0 100 7 RoleAnalyst (by decide)

/-- C4: `ValidateAccessToken` succeeds with the embedded claims exactly on
a well-formed token whose signature was made with the verifier's secret
over the token's own payload and whose expiry has not elapsed; it fails
with the malformed, signature-mismatch or expired error otherwise (these
cases are exhaustive over token shapes); and a verifier configured with
any different secret rejects every token the first service issues. -/
theorem C4_verifyAccessToken_errors :
    (∀ (s : Service) (now : Nat) (raw : String),
      s.ValidateAccessToken now (TokenString.malformed raw) =
        Except.error JwtError.malformed) ∧
    (∀ (s : Service) (now : Nat) (p : Payload) (sig : String × Payload),
      sig ≠ (s.secretKey, p) →
        s.ValidateAccessToken now (TokenString.signed p sig) =
          Except.error JwtError.signatureInvalid) ∧
    (∀ (s : Service) (now : Nat) (p : Payload),
      p.ExpiresAt ≤ now →
        s.ValidateAccessToken now (TokenString.signed p (s.secretKey, p)) =
          Except.error JwtError.expired) ∧
    (∀ (s : Service) (now : Nat) (p : Payload),
      now < p.ExpiresAt →
        s.ValidateAccessToken now (TokenString.signed p (s.secretKey, p)) =
          Except.ok (claimsOfPayload p)) ∧
    (∀ (s s2 : Service) (tIssue now userID : Nat) (role : UserRole),
      s2.secretKey ≠ s.secretKey →
        s2.ValidateAccessToken now (s.GenerateAccessToken tIssue userID role) =
          Except.error JwtError.signatureInvalid) := by
  refine ⟨fun s now raw => rfl, ?_, ?_, ?_, ?_⟩
  · intro s now p sig hsig
    simp [Service.ValidateAccessToken, hsig]
  · intro s now p h
    simp [Service.ValidateAccessToken, Nat.not_lt.mpr h]
  · intro s now p h
    simp [Service.ValidateAccessToken, h]
  · intro s s2 tIssue now userID role hk
    simp [Service.ValidateAccessToken, Service.GenerateAccessToken, Ne.symm hk]

/-- A concrete access-token payload: user 7, role admin, issued at 0,
expiring at 900. -/
def payloadW : Payload :=
  { UserID := some 7, Role := some RoleAdmin, ExpiresAt := 900, IssuedAt := 0,
    Subject := some 7 }

/-- C4 witness: concrete instances of every failure mode and of the success
case — a wrong signature, an elapsed expiry, a valid verification, and a
verifier holding a different secret. -/
theorem C4_witness :
    (NewService "k").ValidateAccessToken 0
      (TokenString.signed payloadW ("other", payloadW)) =
      Except.error JwtError.signatureInvalid ∧
    (NewService "k").ValidateAccessToken 900
      (TokenString.signed payloadW ("k", payloadW)) =
      Except.error JwtError.expired ∧
    (NewService "k").ValidateAccessToken 100
      (TokenString.signed payloadW ("k", payloadW)) =
      Except.ok (claimsOfPayload payloadW) ∧
    (NewService "k2").ValidateAccessToken 0
      ((NewService "k").GenerateAccessToken 0 7 RoleAdmin) =
      Except.error JwtError.signatureInvalid :=
  ⟨C4_verifyAccessToken_errors.2.1 (NewService "k") 0 payloadW ("other", payloadW) (by decide),
   C4_verifyAccessToken_errors.2.2.1 (NewService "k") 900 payloadW (by decide),
   C4_verifyAccessToken_errors.2.2.2.1 (NewService "k") 100 payloadW (by decide),
   C4_verifyAccessToken_errors.2.2.2.2 (NewService "k") (NewService "k2") 0 0 7 RoleAdmin
     (by decide)⟩

/-- C6: `Login` case analysis. Lookup failure yields "invalid credentials";
an inactive account yields "account is inactive" regardless of the
password; a failed password check yields the same "invalid credentials" as
the not-found case; otherwise Login succeeds with both tokens and the
user. -/
theorem C6_login_cases (s : AuthService) (now : Nat) (req : LoginRequest) (u : User)
    (e : String) :
    (s.userRepo.FindByEmail req.Email = Except.error e →
      s.Login now req = Except.error "invalid credentials") ∧
    (s.userRepo.FindByEmail req.Email = Except.ok u → u.IsActive = false →
      s.Login now req = Except.error "account is inactive") ∧
    (s.userRepo.FindByEmail req.Email = Except.ok u → u.IsActive = true →
      u.ValidatePassword req.Password = false →
      s.Login now req = Except.error "invalid credentials") ∧
    (s.userRepo.FindByEmail req.Email = Except.ok u → u.IsActive = true →
      u.ValidatePassword req.Password = true →
      s.Login now req =
        Except.ok
          { AccessToken := s.jwtService.GenerateAccessToken now u.ID u.Role,
            RefreshToken := s.jwtService.GenerateRefreshToken now u.ID,
            User := u }) := by
  refine ⟨?_, ?_, ?_, ?_⟩
  · intro h1
    unfold AuthService.Login
    rw [h1]
  · intro h1 h2
    unfold AuthService.Login
    rw [h1]
    simp [h2]
  · intro h1 h2 h3
    unfold AuthService.Login
    rw [h1]
    simp [h2, h3]
  · intro h1 h2 h3
    unfold AuthService.Login
    rw [h1]
    simp [h2, h3]

/-- The active viewer "a@x" with password "pw" and id 3, stored in the
concrete auth fixtures. -/
def viewerA : User := NewUser 3 0 0 "a@x" "pw" RoleViewer

/-- An inactive user "i@x" with id 4. -/
def inactiveI : User :=
  { NewUser 4 0 0 "i@x" "pw" RoleViewer with IsActive := false }

/-- A concrete auth service: the user store holds `viewerA` (email "a@x",
id 3) and `inactiveI` (email "i@x", id 4); the jwt secret is "k". -/
def authC : AuthService :=
  { userRepo :=
      { FindByID := fun id =>
          if id = 3 then Except.ok viewerA
          else if id = 4 then Except.ok inactiveI
          else Except.error "record not found",
        FindByEmail := fun email =>
          if email = "a@x" then Except.ok viewerA
          else if email = "i@x" then Except.ok inactiveI
          else Except.error "record not found" },
    jwtService := NewService "k" }

/-- C6 witness: against the concrete store, login succeeds for the active
viewer with the right password, fails with "invalid credentials" for an
unknown email and for a wrong password, and fails with "account is
inactive" for the inactive user even with the correct password. -/
theorem C6_witness :
    authC.Login 0 { Email := "a@x", Password := "pw" } =
      Except.ok
        { AccessToken := authC.jwtService.GenerateAccessToken 0 viewerA.ID viewerA.Role,
          RefreshToken := authC.jwtService.GenerateRefreshToken 0 viewerA.ID,
          User := viewerA } ∧
    authC.Login 0 { Email := "ghost@x", Password := "pw" } =
      Except.error "invalid credentials" ∧
    authC.Login 0 { Email := "a@x", Password := "wrong" } =
      Except.error "invalid credentials" ∧
    authC.Login 0 { Email := "i@x", Password := "pw" } =
      Except.error "account is inactive" :=
  ⟨(C6_login_cases authC 0 { Email := "a@x", Password := "pw" } viewerA "").2.2.2
      rfl rfl (by decide),
   (C6_login_cases authC 0 { Email := "ghost@x", Password := "pw" } viewerA
      "record not found").1 rfl,
   (C6_login_cases authC 0 { Email := "a@x", Password := "wrong" } viewerA "").2.2.1
      rfl rfl (by decide),
   (C6_login_cases authC 0 { Email := "i@x", Password := "pw" } inactiveI "").2.1
      rfl rfl⟩

/-- C7: `GetOrder` access control, given that order and requesting user
both load. The call fails with "access denied" iff the requester does not
own the order and lacks Analyst-level permission; the owner always gets the
full order, anyone with Analyst permission (in particular a user with role
analyst or admin) always gets the full order, and a Viewer who is not the
owner is always denied. -/
theorem C7_getOrder_access_control (s : OrderService) (orderID userID : Nat)
    (o : Order) (u : User)
    (ho : s.orderRepo.FindByID orderID = Except.ok o)
    (hu : s.userRepo.FindByID userID = Except.ok u) :
    (s.GetOrder orderID userID = Except.error "access denied" ↔
      o.UserID ≠ userID ∧ u.HasPermission RoleAnalyst = false) ∧
    (o.UserID = userID → s.GetOrder orderID userID = Except.ok o) ∧
    (u.HasPermission RoleAnalyst = true → s.GetOrder orderID userID = Except.ok o) ∧
    (u.Role = RoleAnalyst ∨ u.Role = RoleAdmin → s.GetOrder orderID userID = Except.ok o) ∧
    (u.Role = RoleViewer → o.UserID ≠ userID →
      s.GetOrder orderID userID = Except.error "access denied") := by
  have hG : s.GetOrder orderID userID =
      if o.UserID ≠ userID && !u.HasPermission RoleAnalyst then
        Except.error "access denied"
      else Except.ok o := by
    unfold OrderService.GetOrder
    rw [ho, hu]
  have hAnalyst : u.Role = RoleAnalyst ∨ u.Role = RoleAdmin →
      u.HasPermission RoleAnalyst = true := by
    intro h
    rcases h with h | h <;> (unfold User.HasPermission; rw [h]; rfl)
  have hViewer : u.Role = RoleViewer → u.HasPermission RoleAnalyst = false := by
    intro h
    unfold User.HasPermission
    rw [h]
    rfl
  refine ⟨?_, ?_, ?_, ?_, ?_⟩
  · rw [hG]
    by_cases h1 : o.UserID = userID
    · simp [h1]
    · by_cases h2 : u.HasPermission RoleAnalyst <;> simp [h1, h2]
  · intro h
    rw [hG]
    simp [h]
  · intro h
    rw [hG]
    simp [h]
  · intro h
    rw [hG]
    simp [hAnalyst h]
  · intro h hne
    rw [hG]
    simp [hne, hViewer h]

/-- The three stored users of the order fixtures: owner viewer (id 3), a
second viewer (id 6), an analyst (id 7), an admin (id 8); the order store
holds one order (id 11) owned by user 3. -/
def orderO : Order := NewOrder 11 0 3 "intel-basic" 1

/-- A second viewer, not the owner of `orderO`. -/
def viewerB : User := NewUser 6 0 0 "b@x" "pw" RoleViewer

/-- An analyst user. -/
def analystC : User := NewUser 7 0 0 "c@x" "pw" RoleAnalyst

/-- An admin user. -/
def adminD : User := NewUser 8 0 0 "d@x" "pw" RoleAdmin

/-- The concrete order service for the `GetOrder` and `CreateOrder`
scenarios. -/
def svcOrders : OrderService :=
  { orderRepo :=
      { Save := fun _ => Except.ok (),
        FindByID := fun id => if id = 11 then Except.ok orderO else Except.error "nf",
        FindByUserID := fun _ => Except.ok [] },
    userRepo :=
      { FindByID := fun id =>
          if id = 3 then Except.ok viewerA
          else if id = 6 then Except.ok viewerB
          else if id = 7 then Except.ok analystC
          else if id = 8 then Except.ok adminD
          else Except.error "nf",
        FindByEmail := fun _ => Except.error "nf" } }

/-- C7 witness: on the concrete store, the owner (viewer, id 3) reads their
order, a different viewer (id 6) is denied, and the analyst (id 7) and the
admin (id 8) both read the order. -/
theorem C7_witness :
    svcOrders.GetOrder 11 3 = Except.ok orderO ∧
    svcOrders.GetOrder 11 6 = Except.error "access denied" ∧
    svcOrders.GetOrder 11 7 = Except.ok orderO ∧
    svcOrders.GetOrder 11 8 = Except.ok orderO :=
  ⟨(C7_getOrder_access_control svcOrders 11 3 orderO viewerA rfl rfl).2.1 rfl,
   (C7_getOrder_access_control svcOrders 11 6 orderO viewerB rfl rfl).2.2.2.2
      rfl (by decide),
   (C7_getOrder_access_control svcOrders 11 7 orderO analystC rfl rfl).2.2.2.1
      (Or.inl rfl),
   (C7_getOrder_access_control svcOrders 11 8 orderO adminD rfl rfl).2.2.2.1
      (Or.inr rfl)⟩

/-- C3: a successfully validated refresh token whose embedded user id
resolves to a stored user makes `RefreshToken` succeed with an access
token generated from the user's id and *currently stored* role — the
token's role claim is exactly that stored role — together with a freshly
generated refresh token and the user. -/
theorem C3_refresh_uses_current_role (s : AuthService) (now : Nat) (tok : TokenString)
    (uid : Nat) (u : User)
    (hv : s.jwtService.ValidateRefreshToken now tok = Except.ok uid)
    (hu : s.userRepo.FindByID uid = Except.ok u) :
    s.RefreshToken now tok =
      Except.ok
        { AccessToken := s.jwtService.GenerateAccessToken now u.ID u.Role,
          RefreshToken := s.jwtService.GenerateRefreshToken now u.ID,
          User := u } ∧
    tokenRoleClaim (s.jwtService.GenerateAccessToken now u.ID u.Role) = some u.Role := by
  constructor
  · unfold AuthService.RefreshToken
    rw [hv]
    simp [hu]
  · rfl

/-- C3 witness: refreshing a concrete refresh token for user 3 against the
concrete store issues an access token whose role claim is the stored
viewer role. -/
theorem C3_witness :
    authC.RefreshToken 5 (authC.jwtService.GenerateRefreshToken 0 3) =
      Except.ok
        { AccessToken := authC.jwtService.GenerateAccessToken 5 viewerA.ID viewerA.Role,
          RefreshToken := authC.jwtService.GenerateRefreshToken 5 viewerA.ID,
          User := viewerA } ∧
    tokenRoleClaim (authC.jwtService.GenerateAccessToken 5 viewerA.ID viewerA.Role) =
      some viewerA.Role :=
  C3_refresh_uses_current_role authC 5 (authC.jwtService.GenerateRefreshToken 0 3)
    3 viewerA (by decide) rfl

/-- C8: `CreateOrder` case analysis. An item outside the allow-list fails
with "invalid item_id" for every service (hence regardless of any user
state, before any user lookup); a failing user load yields "user not
found"; a user without Viewer permission yields "insufficient
permissions"; otherwise the order is built at Pending, confirmed, saved,
and a response with the non-empty rendered order id and Confirmed status
is returned. -/
theorem C8_createOrder_cases (s : OrderService) (oid now userID : Nat)
    (req : CreateOrderRequest) (u : User) (e : String) :
    (NewOrder oid now userID req.ItemID req.Quantity).Status = OrderStatus.pending ∧
    (validItems req.ItemID = false →
      ∀ (s2 : OrderService), s2.CreateOrder oid now userID req =
        Except.error "invalid item_id") ∧
    (validItems req.ItemID = true →
      s.userRepo.FindByID userID = Except.error e →
      s.CreateOrder oid now userID req = Except.error "user not found") ∧
    (validItems req.ItemID = true →
      s.userRepo.FindByID userID = Except.ok u →
      u.HasPermission RoleViewer = false →
      s.CreateOrder oid now userID req = Except.error "insufficient permissions") ∧
    (validItems req.ItemID = true →
      s.userRepo.FindByID userID = Except.ok u →
      u.HasPermission RoleViewer = true →
      s.orderRepo.Save
        (OrderAggregate.Confirm now (NewOrder oid now userID req.ItemID req.Quantity)) =
        Except.ok () →
      s.CreateOrder oid now userID req =
        Except.ok { OrderID := uuidString oid, Status := OrderStatus.confirmed } ∧
        uuidString oid ≠ "") := by
  refine ⟨rfl, ?_, ?_, ?_, ?_⟩
  · intro h1 s2
    unfold OrderService.CreateOrder
    rw [h1]
    rfl
  · intro h1 h2
    unfold OrderService.CreateOrder
    rw [h1, h2]
    rfl
  · intro h1 h2 h3
    unfold OrderService.CreateOrder
    rw [h1, h2]
    simp [h3]
  · intro h1 h2 h3 h4
    refine ⟨?_, uuidString_ne_empty oid⟩
    unfold OrderService.CreateOrder
    rw [h1, h2]
    simp only [h3, Bool.not_true, Bool.false_eq_true, if_false, h4]
    rfl

/-- C8 witness: on the concrete store, an order for "intel-basic" by the
active viewer (id 3) succeeds with status Confirmed and a non-empty order
id, while "bogus-item" fails with "invalid item_id" even against a service
whose user store is empty. -/
theorem C8_witness :
    svcOrders.CreateOrder 12 0 3 { ItemID := "intel-basic", Quantity := 1 } =
      Except.ok { OrderID := uuidString 12, Status := OrderStatus.confirmed } ∧
    uuidString 12 ≠ "" ∧
    svcSuper.CreateOrder 12 0 3 { ItemID := "bogus-item", Quantity := 1 } =
      Except.error "invalid item_id" :=
  ⟨((C8_createOrder_cases svcOrders 12 0 3 { ItemID := "intel-basic", Quantity := 1 }
      viewerA "").2.2.2.2 rfl rfl (by decide) rfl).1,
   ((C8_createOrder_cases svcOrders 12 0 3 { ItemID := "intel-basic", Quantity := 1 }
      viewerA "").2.2.2.2 rfl rfl (by decide) rfl).2,
   (C8_createOrder_cases svcOrders 12 0 3 { ItemID := "bogus-item", Quantity := 1 }
      viewerA "").2.1 rfl svcSuper⟩
